import Mathlib

/-!
Shallow embedding of the `ChatUI` widget from `src/src/ChatUI.tsx`
(rag_lib_plugin).  The widget keeps a conversation (list of messages), an
input draft, a loading flag, an error banner, an open/closed flag for the
floating panel, and an abort-controller reference.  The event-driven
behaviour of `handleSubmit`, `handleCancel`, the fetch resolution and the
open/hide buttons is modelled as a step function on an explicit state,
with outstanding fetches tracked by identifier so that late resolutions of
aborted requests can be interleaved faithfully.
-/

namespace RagChat

/-- Message role, from the `Message` interface (`role: 'user' | 'assistant'`). -/
inductive Role
  | user
  | assistant
deriving DecidableEq, Repr

/-- A conversation message: `{ role, content, isError? }`.  The optional
`isError` flag is modelled as a `Bool` defaulting to `false`. -/
structure Message where
  role : Role
  content : String
  isError : Bool := false
deriving DecidableEq, Repr

/-- The `detail` field of a parsed error body: a string, an object with an
optional `message` field, or absent / some other value (both of which make
`data.detail?.message` undefined). -/
inductive DetailVal
  | str (s : String)
  | obj (message : Option String)
  | absent
deriving DecidableEq, Repr

/-- A parsed JSON response body, keeping only the fields the widget reads:
`answer` (success path) and `detail` (error path).  `none` / `absent`
stand for a missing field. -/
structure Body where
  answer : Option String := none
  detail : DetailVal := .absent
deriving DecidableEq, Repr

/-- The empty object `{}` that `res.json().catch(() => ({}))` substitutes
for an unparseable body. -/
def emptyBody : Body := {}

/-- The value of `data.detail?.message` when it is a string, `none` when it
is undefined. -/
def detailMessage : DetailVal → Option String
  | .obj (some m) => some m
  | _ => none

/-- The error text computed at `ChatUI.tsx:109`:
`typeof data.detail === 'string' ? data.detail : data.detail?.message || res.statusText || 'Request failed'`.
JavaScript `||` falls through on the empty string (falsy) and on undefined. -/
def errMsg (data : Body) (statusText : String) : String :=
  match data.detail with
  | .str s => s
  | _ =>
    let m := (detailMessage data.detail).getD ""
    if m ≠ "" then m
    else if statusText ≠ "" then statusText
    else "Request failed"

/-- The HTTP request issued by `handleSubmit` (`fetch(url, {...})`),
with the JSON body `{ question: q }` kept structurally. -/
structure HttpRequest where
  method : String
  url : String
  contentType : String
  xApiKey : String
  questionBody : String
deriving DecidableEq, Repr

/-- Widget configuration: the props the core logic reads. -/
structure Config where
  apiKey : String
  baseUrl : String
  floating : Bool := true
deriving Repr

/-- JavaScript `String.prototype.trim()`: remove whitespace from both
ends of the string. -/
def trimString (s : String) : String :=
  String.mk
    (((s.data.dropWhile Char.isWhitespace).reverse.dropWhile
        Char.isWhitespace).reverse)

/-- `baseUrl.replace(/\/$/, '')`: strip a single trailing slash. -/
def stripTrailingSlash (s : String) : String :=
  if s.data.getLast? = some '/' then String.mk s.data.dropLast else s

/-- The target URL computed at `ChatUI.tsx:74`. -/
def queryUrl (baseUrl : String) : String :=
  stripTrailingSlash baseUrl ++ "/rag/query"

/-- An outstanding fetch: its abort-controller identity, the request it
carries and whether its controller has been aborted. -/
structure Req where
  rid : Nat
  request : HttpRequest
  aborted : Bool
deriving DecidableEq, Repr

/-- The widget instance state: the five `useState` slots, the
`abortControllerRef` (as the identifier of the controller it points to),
the set of fetches whose continuation has not yet run, and a fresh-id
counter. -/
structure WidgetState where
  question : String
  messages : List Message
  loading : Bool
  error : Option String
  isOpen : Bool
  ref : Option Nat
  outstanding : List Req
  nextId : Nat
deriving DecidableEq, Repr

/-- Initial state: empty draft, no messages, not loading, no error,
`isOpen = !floating`, no controller, no outstanding fetch. -/
def initState (cfg : Config) : WidgetState :=
  { question := ""
    messages := []
    loading := false
    error := none
    isOpen := !cfg.floating
    ref := none
    outstanding := []
    nextId := 0 }

/-- How the network resolves a fetch: an HTTP response (ok flag, parsed
body when parseable, status text), a rejection with a non-abort `Error`
carrying a message, or a rejection with a non-`Error` value. -/
inductive Outcome
  | http (ok : Bool) (json : Option Body) (statusText : String)
  | netError (message : String)
  | netThrow
deriving DecidableEq, Repr

/-- The events a widget instance processes: keystrokes, form submission,
the cancel button, the resolution of outstanding fetch `rid` (with
`duringBody` recording whether an abort, if any, landed while the response
body was being read), and the open / hide buttons of the floating
panel. -/
inductive Event
  | setDraft (v : String)
  | submit
  | cancel
  | resolve (rid : Nat) (o : Outcome) (duringBody : Bool)
  | openPanel
  | closePanel
deriving DecidableEq, Repr

/-- `onChange` of the input: `setQuestion(e.target.value)`. -/
def setDraft (v : String) (s : WidgetState) : WidgetState :=
  { s with question := v }

/-- `handleCancel` (`ChatUI.tsx:80-86`): if the ref holds a controller,
abort it and null the ref; then `setLoading(false)` unconditionally. -/
def handleCancel (s : WidgetState) : WidgetState :=
  match s.ref with
  | some i =>
      { s with
        outstanding := s.outstanding.map
          (fun r => if r.rid = i then { r with aborted := true } else r)
        ref := none
        loading := false }
  | none => { s with loading := false }

/-- The synchronous part of `handleSubmit` (`ChatUI.tsx:88-106`): validate,
echo the user message, clear the draft, clear the banner, set loading,
install a fresh abort controller and issue the fetch. -/
def handleSubmit (cfg : Config) (s : WidgetState) : WidgetState :=
  let q := trimString s.question
  if q = "" ∨ s.loading then s
  else
    { s with
      question := ""
      messages := s.messages ++ [{ role := .user, content := q }]
      loading := true
      error := none
      ref := some s.nextId
      outstanding := s.outstanding ++
        [{ rid := s.nextId
           request :=
             { method := "POST"
               url := queryUrl cfg.baseUrl
               contentType := "application/json"
               xApiKey := cfg.apiKey
               questionBody := q }
           aborted := false }]
      nextId := s.nextId + 1 }

/-- Look up an outstanding fetch by controller id. -/
def findReq (i : Nat) (l : List Req) : Option Req :=
  l.find? (fun r => r.rid = i)

/-- Remove an outstanding fetch once its continuation has run. -/
def removeReq (i : Nat) (l : List Req) : List Req :=
  l.filter (fun r => r.rid ≠ i)

/-- The `finally` block (`ChatUI.tsx:117-120`):
`abortControllerRef.current = null; setLoading(false)`. -/
def settle (s : WidgetState) : WidgetState :=
  { s with ref := none, loading := false }

/-- The continuation of the fetch issued for controller `i`
(`ChatUI.tsx:107-120`).  The continuation has two suspension points, so an
abort can land in two distinct windows, distinguished by `duringBody`:

* abort before `await fetch(...)` settles (`duringBody = false`, or any
  rejected fetch): the promise rejects with an `AbortError`, the catch
  returns early and only the `finally` block runs;
* abort after the headers arrived but while `await res.json()` is reading
  the body (`duringBody = true` on an `.http` outcome): `res.json()`
  rejects with an `AbortError` that `.catch(() => ({}))` swallows, so the
  continuation proceeds with `data = {}` — appending the empty answer on
  `res.ok`, or throwing a plain `Error` (name `"Error"`, not
  `"AbortError"`) on `!res.ok`, which the catch turns into an appended
  error message plus banner.

For a non-aborted fetch the outcome is processed as written: parse failure
yields `{}`, a non-ok status raises the derived error text, success
appends the answer; every rejection with a non-abort error appends an
error message and sets the banner; the `finally` block always runs. -/
def resolveReq (s : WidgetState) (i : Nat) (o : Outcome)
    (duringBody : Bool) : WidgetState :=
  match findReq i s.outstanding with
  | none => s
  | some r =>
    let s1 := { s with outstanding := removeReq i s.outstanding }
    if r.aborted then
      match o with
      | .http ok _ statusText =>
          if duringBody then
            if ok then
              settle { s1 with
                messages := s1.messages ++
                  [{ role := .assistant, content := emptyBody.answer.getD "" }] }
            else
              let msg := errMsg emptyBody statusText
              settle { s1 with
                error := some msg
                messages := s1.messages ++
                  [{ role := .assistant, content := msg, isError := true }] }
          else
            settle s1
      | _ => settle s1
    else
      match o with
      | .http true json _ =>
          let data := json.getD emptyBody
          settle { s1 with
            messages := s1.messages ++
              [{ role := .assistant, content := data.answer.getD "" }] }
      | .http false json statusText =>
          let data := json.getD emptyBody
          let msg := errMsg data statusText
          settle { s1 with
            error := some msg
            messages := s1.messages ++
              [{ role := .assistant, content := msg, isError := true }] }
      | .netError message =>
          settle { s1 with
            error := some message
            messages := s1.messages ++
              [{ role := .assistant, content := message, isError := true }] }
      | .netThrow =>
          let msg := "Something went wrong"
          settle { s1 with
            error := some msg
            messages := s1.messages ++
              [{ role := .assistant, content := msg, isError := true }] }

/-- The open button (`ChatUI.tsx:227-235`), rendered only in floating
mode: `setIsOpen(true)`. -/
def openPanel (cfg : Config) (s : WidgetState) : WidgetState :=
  if cfg.floating then { s with isOpen := true } else s

/-- The hide button (`ChatUI.tsx:130-140`), rendered only in floating mode
inside the open panel: `setIsOpen(false)`. -/
def closePanel (cfg : Config) (s : WidgetState) : WidgetState :=
  if cfg.floating ∧ s.isOpen then { s with isOpen := false } else s

/-- One step of the widget's event loop. -/
def step (cfg : Config) (s : WidgetState) : Event → WidgetState
  | .setDraft v => setDraft v s
  | .submit => handleSubmit cfg s
  | .cancel => handleCancel s
  | .resolve i o b => resolveReq s i o b
  | .openPanel => openPanel cfg s
  | .closePanel => closePanel cfg s

/-- Run a finite interleaving of events from the initial state. -/
def run (cfg : Config) (evs : List Event) : WidgetState :=
  evs.foldl (step cfg) (initState cfg)

/-- Number of user-role messages. -/
def userCount (ms : List Message) : Nat :=
  (ms.filter (fun m => m.role = Role.user)).length

/-- Number of assistant-role messages (error messages included: they carry
`role = assistant`). -/
def assistantCount (ms : List Message) : Nat :=
  (ms.filter (fun m => m.role = Role.assistant)).length

/-- The presentation states of §4.3. -/
inductive PState
  | inlineMode
  | floatingClosed
  | floatingOpen
deriving DecidableEq, Repr

/-- The presentation state rendered by `ChatUI` (`ChatUI.tsx:217-246`):
non-floating renders the panel inline; floating renders the panel iff
`isOpen`. -/
def pstate (cfg : Config) (s : WidgetState) : PState :=
  if cfg.floating then
    (if s.isOpen then .floatingOpen else .floatingClosed)
  else .inlineMode

/-- The single message the fetch continuation appends for a non-aborted
resolution (characterization used by the lemmas below). -/
def appendedMsg (o : Outcome) : Message :=
  match o with
  | .http true json _ =>
      { role := .assistant, content := (json.getD emptyBody).answer.getD "" }
  | .http false json statusText =>
      { role := .assistant, content := errMsg (json.getD emptyBody) statusText,
        isError := true }
  | .netError message =>
      { role := .assistant, content := message, isError := true }
  | .netThrow =>
      { role := .assistant, content := "Something went wrong", isError := true }

/-- The banner update of a non-aborted resolution: `none` keeps the old
banner (success path), `some m` overwrites it (failure paths). -/
def errOfOutcome (o : Outcome) : Option String :=
  match o with
  | .http true _ _ => none
  | .http false json statusText => some (errMsg (json.getD emptyBody) statusText)
  | .netError message => some message
  | .netThrow => some "Something went wrong"

/-- Inductive invariant maintained by all cancel-free interleavings: no
outstanding fetch is aborted, the user/assistant message difference equals
the number of outstanding fetches, loading reflects an outstanding fetch,
and at most one fetch is outstanding. -/
def Inv (s : WidgetState) : Prop :=
  (∀ r ∈ s.outstanding, r.aborted = false) ∧
  userCount s.messages = assistantCount s.messages + s.outstanding.length ∧
  (s.loading = true ↔ s.outstanding ≠ []) ∧
  s.outstanding.length ≤ 1

/-- A fixed concrete configuration used by witnesses. -/
def cfg0 : Config :=
  { apiKey := "rag_key", baseUrl := "http://api.example.com", floating := true }

/-- A fixed concrete non-floating configuration used by witnesses. -/
def cfg1 : Config :=
  { apiKey := "rag_key", baseUrl := "http://api.example.com", floating := false }

/-- The §3 balance predicate: the number of user messages minus the number
of assistant messages (error messages included) is 0 or 1. -/
def BalancedMsgs (ms : List Message) : Prop :=
  userCount ms = assistantCount ms ∨ userCount ms = assistantCount ms + 1

instance (ms : List Message) : Decidable (BalancedMsgs ms) := by
  unfold BalancedMsgs; infer_instance

end RagChat

namespace RagChat

lemma userCount_append_user (ms : List Message) (c : String) (e : Bool) :
    userCount (ms ++ [{ role := .user, content := c, isError := e }]) =
      userCount ms + 1 := by
  simp [userCount, List.filter_append]

lemma userCount_append_assistant (ms : List Message) (c : String) (e : Bool) :
    userCount (ms ++ [{ role := .assistant, content := c, isError := e }]) =
      userCount ms := by
  simp [userCount, List.filter_append]

lemma assistantCount_append_user (ms : List Message) (c : String) (e : Bool) :
    assistantCount (ms ++ [{ role := .user, content := c, isError := e }]) =
      assistantCount ms := by
  simp [assistantCount, List.filter_append]

lemma assistantCount_append_assistant (ms : List Message) (c : String) (e : Bool) :
    assistantCount (ms ++ [{ role := .assistant, content := c, isError := e }]) =
      assistantCount ms + 1 := by
  simp [assistantCount, List.filter_append]

lemma findReq_mem {i : Nat} {l : List Req} {r : Req}
    (h : findReq i l = some r) : r ∈ l :=
  List.mem_of_find?_eq_some h

lemma findReq_rid {i : Nat} {l : List Req} {r : Req}
    (h : findReq i l = some r) : r.rid = i := by
  have := List.find?_some h
  simpa using this

lemma length_le_one_mem_eq {l : List Req} {r : Req}
    (hlen : l.length ≤ 1) (hmem : r ∈ l) : l = [r] := by
  cases l with
  | nil => cases hmem
  | cons a t =>
    cases t with
    | nil => simp at hmem; simp [hmem]
    | cons b t' => simp at hlen

lemma appendedMsg_role (o : Outcome) : (appendedMsg o).role = Role.assistant := by
  cases o with
  | http ok json statusText => cases ok <;> rfl
  | netError message => rfl
  | netThrow => rfl

lemma resolveReq_none {s : WidgetState} {i : Nat} (o : Outcome) (b : Bool)
    (hfind : findReq i s.outstanding = none) : resolveReq s i o b = s := by
  unfold resolveReq
  rw [hfind]

lemma resolveReq_aborted_early {s : WidgetState} {i : Nat} {r : Req}
    (o : Outcome) (b : Bool)
    (hfind : findReq i s.outstanding = some r) (hab : r.aborted = true)
    (h : ∀ ok json st, o = Outcome.http ok json st → b = false) :
    resolveReq s i o b =
      { s with ref := none, loading := false,
               outstanding := removeReq i s.outstanding } := by
  unfold resolveReq
  rw [hfind]
  cases o with
  | http ok json statusText => simp [hab, settle, h ok json statusText rfl]
  | netError message => simp [hab, settle]
  | netThrow => simp [hab, settle]

lemma resolveReq_aborted_body {s : WidgetState} {i : Nat} {r : Req}
    {ok : Bool} (json : Option Body) (st : String)
    (hfind : findReq i s.outstanding = some r) (hab : r.aborted = true) :
    resolveReq s i (.http ok json st) true =
      { s with
        messages := s.messages ++ [appendedMsg (.http ok none st)]
        error := (errOfOutcome (.http ok none st)).elim s.error some
        ref := none
        loading := false
        outstanding := removeReq i s.outstanding } := by
  unfold resolveReq
  rw [hfind]
  cases ok <;> simp [hab, settle, appendedMsg, errOfOutcome, emptyBody]

lemma resolveReq_found {s : WidgetState} {i : Nat} {r : Req} (o : Outcome)
    (b : Bool)
    (hfind : findReq i s.outstanding = some r) (hnab : r.aborted = false) :
    resolveReq s i o b =
      { s with
        messages := s.messages ++ [appendedMsg o]
        error := (errOfOutcome o).elim s.error some
        ref := none
        loading := false
        outstanding := removeReq i s.outstanding } := by
  unfold resolveReq
  rw [hfind]
  cases o with
  | http ok json statusText =>
      cases ok <;> simp [hnab, settle, appendedMsg, errOfOutcome]
  | netError message => simp [hnab, settle, appendedMsg, errOfOutcome]
  | netThrow => simp [hnab, settle, appendedMsg, errOfOutcome]

lemma userCount_append_assistant_msg (ms : List Message) {m : Message}
    (h : m.role = Role.assistant) : userCount (ms ++ [m]) = userCount ms := by
  simp [userCount, List.filter_append, h]

lemma assistantCount_append_assistant_msg (ms : List Message) {m : Message}
    (h : m.role = Role.assistant) :
    assistantCount (ms ++ [m]) = assistantCount ms + 1 := by
  simp [assistantCount, List.filter_append, h]

lemma inv_init (cfg : Config) : Inv (initState cfg) := by
  refine ⟨?_, ?_, ?_, ?_⟩ <;> simp [initState, Inv, userCount, assistantCount]

lemma inv_setDraft {s : WidgetState} (h : Inv s) (v : String) :
    Inv (setDraft v s) := by
  simpa [Inv, setDraft] using h

lemma inv_handleSubmit {s : WidgetState} (h : Inv s) (cfg : Config) :
    Inv (handleSubmit cfg s) := by
  obtain ⟨hab, hcount, hload, hlen⟩ := h
  by_cases hg : trimString s.question = "" ∨ s.loading = true
  · have : handleSubmit cfg s = s := by
      unfold handleSubmit
      simp only [if_pos hg]
    rw [this]
    exact ⟨hab, hcount, hload, hlen⟩
  · push_neg at hg
    have hnotload : s.loading = false := by
      cases hb : s.loading
      · rfl
      · exact absurd hb hg.2
    have hout : s.outstanding = [] := by
      by_contra hne
      have := hload.mpr hne
      rw [hnotload] at this
      exact Bool.false_ne_true this
    have hcount0 : userCount s.messages = assistantCount s.messages := by
      rw [hcount, hout]
      rfl
    have hrw : handleSubmit cfg s =
        { s with
          question := ""
          messages := s.messages ++
            [{ role := .user, content := trimString s.question }]
          loading := true
          error := none
          ref := some s.nextId
          outstanding := s.outstanding ++
            [{ rid := s.nextId
               request :=
                 { method := "POST"
                   url := queryUrl cfg.baseUrl
                   contentType := "application/json"
                   xApiKey := cfg.apiKey
                   questionBody := trimString s.question }
               aborted := false }]
          nextId := s.nextId + 1 } := by
      unfold handleSubmit
      simp only [if_neg (not_or.mpr hg)]
    rw [hrw]
    refine ⟨?_, ?_, ?_, ?_⟩
    · intro r hr
      simp [hout] at hr
      simp [hr]
    · simp [hout, userCount_append_user, assistantCount_append_user, hcount0]
    · simp [hout]
    · simp [hout]

lemma inv_openPanel {s : WidgetState} (h : Inv s) (cfg : Config) :
    Inv (openPanel cfg s) := by
  unfold openPanel
  split
  · simpa [Inv] using h
  · exact h

lemma inv_closePanel {s : WidgetState} (h : Inv s) (cfg : Config) :
    Inv (closePanel cfg s) := by
  unfold closePanel
  split
  · simpa [Inv] using h
  · exact h

lemma inv_resolveReq {s : WidgetState} (h : Inv s) (i : Nat) (o : Outcome)
    (b : Bool) : Inv (resolveReq s i o b) := by
  obtain ⟨hab, hcount, hload, hlen⟩ := h
  cases hfind : findReq i s.outstanding with
  | none =>
    rw [resolveReq_none o b hfind]
    exact ⟨hab, hcount, hload, hlen⟩
  | some r =>
    have hmem : r ∈ s.outstanding := findReq_mem hfind
    have hrid : r.rid = i := findReq_rid hfind
    have hsingle : s.outstanding = [r] := length_le_one_mem_eq hlen hmem
    have hrem : removeReq i s.outstanding = [] := by
      simp [removeReq, hsingle, hrid]
    have hnotab : r.aborted = false := hab r hmem
    have hcount1 : userCount s.messages = assistantCount s.messages + 1 := by
      rw [hcount, hsingle]
      rfl
    rw [resolveReq_found o b hfind hnotab]
    refine ⟨?_, ?_, ?_, ?_⟩
    · intro r1 hr1
      rw [hrem] at hr1
      cases hr1
    · simp [hrem, userCount_append_assistant_msg _ (appendedMsg_role o),
        assistantCount_append_assistant_msg _ (appendedMsg_role o), hcount1]
    · simp [hrem]
    · simp [hrem]

lemma inv_step {s : WidgetState} {e : Event} (h : Inv s) (cfg : Config)
    (hne : e ≠ Event.cancel) : Inv (step cfg s e) := by
  cases e with
  | setDraft v => exact inv_setDraft h v
  | submit => exact inv_handleSubmit h cfg
  | cancel => exact absurd rfl hne
  | resolve i o b => exact inv_resolveReq h i o b
  | openPanel => exact inv_openPanel h cfg
  | closePanel => exact inv_closePanel h cfg

lemma inv_foldl (cfg : Config) :
    ∀ (evs : List Event) (s : WidgetState), Inv s →
      Event.cancel ∉ evs → Inv (evs.foldl (step cfg) s)
  | [], s, h, _ => h
  | e :: rest, s, h, hnc => by
    have h1 : e ≠ Event.cancel := fun he => hnc (he ▸ List.mem_cons_self e rest)
    have h2 : Event.cancel ∉ rest := fun hr => hnc (List.mem_cons_of_mem e hr)
    exact inv_foldl cfg rest (step cfg s e) (inv_step h cfg h1) h2

lemma inv_run (cfg : Config) (evs : List Event)
    (hnc : Event.cancel ∉ evs) : Inv (run cfg evs) :=
  inv_foldl cfg evs (initState cfg) (inv_init cfg) hnc

lemma handleSubmit_noop (cfg : Config) {s : WidgetState}
    (h : trimString s.question = "" ∨ s.loading = true) :
    handleSubmit cfg s = s := by
  unfold handleSubmit
  simp only [if_pos h]

lemma handleSubmit_accepted (cfg : Config) {s : WidgetState}
    (hq : trimString s.question ≠ "") (hl : s.loading = false) :
    handleSubmit cfg s =
      { s with
        question := ""
        messages := s.messages ++
          [{ role := .user, content := trimString s.question }]
        loading := true
        error := none
        ref := some s.nextId
        outstanding := s.outstanding ++
          [{ rid := s.nextId
             request :=
               { method := "POST"
                 url := queryUrl cfg.baseUrl
                 contentType := "application/json"
                 xApiKey := cfg.apiKey
                 questionBody := trimString s.question }
             aborted := false }]
        nextId := s.nextId + 1 } := by
  unfold handleSubmit
  rw [if_neg (not_or.mpr ⟨hq, by simp [hl]⟩)]

lemma resolveReq_question (s : WidgetState) (i : Nat) (o : Outcome)
    (b : Bool) : (resolveReq s i o b).question = s.question := by
  cases hfind : findReq i s.outstanding with
  | none => rw [resolveReq_none o b hfind]
  | some r =>
    cases hab : r.aborted
    · rw [resolveReq_found o b hfind hab]
    · cases o with
      | http ok json st =>
        cases b
        · rw [resolveReq_aborted_early _ _ hfind hab (fun _ _ _ _ => rfl)]
        · rw [resolveReq_aborted_body json st hfind hab]
      | netError m =>
        rw [resolveReq_aborted_early _ _ hfind hab
          (fun _ _ _ hh => absurd hh (by simp))]
      | netThrow =>
        rw [resolveReq_aborted_early _ _ hfind hab
          (fun _ _ _ hh => absurd hh (by simp))]

/-- Claim C5: a `submit` whose question is empty after trimming, or issued
while a request is pending, is a complete no-op: conversation, draft,
loading flag, error banner and outstanding fetches are all unchanged and
no HTTP request is issued. -/
theorem claim_C5_submit_noop (cfg : Config) (s : WidgetState)
    (h : trimString s.question = "" ∨ s.loading = true) :
    handleSubmit cfg s = s ∧
    (handleSubmit cfg s).messages.length = s.messages.length ∧
    (handleSubmit cfg s).question = s.question ∧
    (handleSubmit cfg s).loading = s.loading ∧
    (handleSubmit cfg s).error = s.error ∧
    (handleSubmit cfg s).outstanding = s.outstanding ∧
    (handleSubmit cfg s).nextId = s.nextId := by
  have he := handleSubmit_noop cfg h
  exact ⟨he, by rw [he], by rw [he], by rw [he], by rw [he], by rw [he],
    by rw [he]⟩

/-- Witness for C5: an all-whitespace draft is rejected, and so is a
submission issued while a request is pending. -/
theorem claim_C5_submit_noop_witness :
    handleSubmit cfg0 (setDraft "   " (initState cfg0)) =
      setDraft "   " (initState cfg0) ∧
    handleSubmit cfg0 (setDraft "again" (run cfg0 [.setDraft "a", .submit])) =
      setDraft "again" (run cfg0 [.setDraft "a", .submit]) :=
  ⟨(claim_C5_submit_noop cfg0 (setDraft "   " (initState cfg0))
      (Or.inl (by decide))).1,
   (claim_C5_submit_noop cfg0 (setDraft "again" (run cfg0 [.setDraft "a", .submit]))
      (Or.inr (by decide))).1⟩

/-- Claim C6: every accepted submission issues a POST to
`stripTrailingSlash baseUrl ++ "/rag/query"` with the JSON content type,
the configured API key in `X-API-Key`, and body `{ question: trimmed }`;
and the URL computation strips exactly one trailing slash when present. -/
theorem claim_C6_request_shape (cfg : Config) (s : WidgetState)
    (hq : trimString s.question ≠ "") (hl : s.loading = false) :
    (handleSubmit cfg s).outstanding =
      s.outstanding ++
        [{ rid := s.nextId
           request :=
             { method := "POST"
               url := stripTrailingSlash cfg.baseUrl ++ "/rag/query"
               contentType := "application/json"
               xApiKey := cfg.apiKey
               questionBody := trimString s.question }
           aborted := false }] ∧
    (∀ b : String, stripTrailingSlash (b ++ "/") = b) ∧
    (∀ b : String, b.data.getLast? ≠ some '/' → stripTrailingSlash b = b) := by
  refine ⟨?_, ?_, ?_⟩
  · rw [handleSubmit_accepted cfg hq hl]
    rfl
  · intro b
    have hdata : (b ++ "/").data = b.data ++ ['/'] := by
      simp [String.data_append]
    simp [stripTrailingSlash, hdata]
  · intro b hb
    simp [stripTrailingSlash, hb]

/-- Witness for C6: submitting `" hi "` against a base URL with a trailing
slash issues the expected request. -/
theorem claim_C6_request_shape_witness :
    (handleSubmit { apiKey := "k1", baseUrl := "http://h/" }
        (setDraft " hi " (initState { apiKey := "k1", baseUrl := "http://h/" }))).outstanding =
      [{ rid := 0
         request :=
           { method := "POST"
             url := "http://h/rag/query"
             contentType := "application/json"
             xApiKey := "k1"
             questionBody := "hi" }
         aborted := false }] ∧
    stripTrailingSlash ("http://h" ++ "/") = "http://h" := by
  have h := claim_C6_request_shape { apiKey := "k1", baseUrl := "http://h/" }
    (setDraft " hi " (initState { apiKey := "k1", baseUrl := "http://h/" }))
    (by decide) (by decide)
  refine ⟨?_, h.2.1 "http://h"⟩
  rw [h.1]
  decide

/-- Claim C7: an accepted `submit` appends exactly one user message whose
content is the trimmed question, clears the draft synchronously, leaves
the issued fetch outstanding (so the echo precedes any resolution), and no
resolution ever touches the draft. -/
theorem claim_C7_user_echo (cfg : Config) (s : WidgetState)
    (hq : trimString s.question ≠ "") (hl : s.loading = false) :
    (handleSubmit cfg s).messages =
      s.messages ++ [{ role := .user, content := trimString s.question }] ∧
    (handleSubmit cfg s).question = "" ∧
    ({ rid := s.nextId
       request :=
         { method := "POST"
           url := queryUrl cfg.baseUrl
           contentType := "application/json"
           xApiKey := cfg.apiKey
           questionBody := trimString s.question }
       aborted := false } : Req) ∈ (handleSubmit cfg s).outstanding ∧
    (∀ (s' : WidgetState) (i : Nat) (o : Outcome) (b : Bool),
      (resolveReq s' i o b).question = s'.question) := by
  rw [handleSubmit_accepted cfg hq hl]
  refine ⟨rfl, rfl, ?_, fun s' i o b => resolveReq_question s' i o b⟩
  exact List.mem_append_right _ (List.mem_singleton.mpr rfl)

/-- Witness for C7: submitting the draft `" hello "` echoes the user
message `"hello"` at once and clears the draft. -/
theorem claim_C7_user_echo_witness :
    (handleSubmit cfg0 (setDraft " hello " (initState cfg0))).messages =
      [{ role := .user, content := "hello" }] ∧
    (handleSubmit cfg0 (setDraft " hello " (initState cfg0))).question = "" := by
  have h := claim_C7_user_echo cfg0 (setDraft " hello " (initState cfg0))
    (by decide) (by decide)
  refine ⟨?_, h.2.1⟩
  rw [h.1]
  decide

/-- Claim C10: every accepted submission clears the error banner at
dispatch time, whatever its previous value; a failed resolution re-sets the
banner to the new error text; a successful resolution leaves the banner
untouched (so clearing is not deferred to success). -/
theorem claim_C10_banner (cfg : Config) (s : WidgetState) (i : Nat)
    (json : Option Body) (st : String) (b : Bool) :
    (trimString s.question ≠ "" → s.loading = false →
      (handleSubmit cfg s).error = none) ∧
    (∀ r : Req, findReq i s.outstanding = some r → r.aborted = false →
      (resolveReq s i (.http false json st) b).error =
        some (errMsg (json.getD emptyBody) st) ∧
      (resolveReq s i (.http true json st) b).error = s.error) := by
  refine ⟨fun hq hl => ?_, fun r hfind hnab => ⟨?_, ?_⟩⟩
  · rw [handleSubmit_accepted cfg hq hl]
  · rw [resolveReq_found _ b hfind hnab]
    rfl
  · rw [resolveReq_found _ b hfind hnab]
    rfl

/-- Witness for C10: with a failed request's banner set, the next accepted
submit clears it. -/
theorem claim_C10_banner_witness :
    (handleSubmit cfg0
        (setDraft "next"
          (run cfg0 [.setDraft "q", .submit,
            .resolve 0 (.http false (some { detail := .str "bad key" }) "Bad Request")
              false]))).error =
      none ∧
    (resolveReq (run cfg0 [.setDraft "q", .submit]) 0
        (.http false (some { detail := .str "bad key" }) "Bad Request")
        false).error =
      some "bad key" := by
  have h1 := claim_C10_banner cfg0
    (setDraft "next"
      (run cfg0 [.setDraft "q", .submit,
        .resolve 0 (.http false (some { detail := .str "bad key" }) "Bad Request")
          false]))
    0 (some { detail := .str "bad key" }) "Bad Request" false
  have h2 := claim_C10_banner cfg0 (run cfg0 [.setDraft "q", .submit]) 0
    (some { detail := .str "bad key" }) "Bad Request" false
  refine ⟨h1.1 (by decide) (by decide), ?_⟩
  have := (h2.2
    { rid := 0
      request :=
        { method := "POST"
          url := "http://api.example.com/rag/query"
          contentType := "application/json"
          xApiKey := "rag_key"
          questionBody := "q" }
      aborted := false }
    (by decide) (by decide)).1
  rw [this]
  decide

/-- Claim C1 (counterexample): the §3 invariant as stated is false once a
cancel is interleaved — after submit, cancel, submit the conversation has
two user messages and no assistant message, a difference of 2. -/
theorem claim_C1_counterexample :
    ¬ BalancedMsgs (run cfg0
      [.setDraft "first", .submit, .cancel,
       .setDraft "second", .submit]).messages := by
  decide

/-- Claim C1 (amended): for every finite interleaving of submit,
success-response and error-response operations that contains no cancel,
the number of user messages minus the number of assistant messages (error
messages included) is 0 or 1 at every intermediate point; each cancelled
submission leaves its user message permanently unmatched, so a cancel can
push the difference above 1. -/
theorem claim_C1_balance (cfg : Config) (evs pre suf : List Event)
    (hnc : Event.cancel ∉ evs) (hsplit : evs = pre ++ suf) :
    BalancedMsgs (run cfg pre).messages := by
  have hpre : Event.cancel ∉ pre := fun h =>
    hnc (hsplit ▸ List.mem_append_left suf h)
  obtain ⟨-, hcount, -, hlen⟩ := inv_run cfg pre hpre
  unfold BalancedMsgs
  omega

/-- Witness for C1: a cancel-free submit / success round keeps the
difference in range. -/
theorem claim_C1_balance_witness :
    BalancedMsgs (run cfg0
      [.setDraft "hello", .submit,
       .resolve 0 (.http true (some { answer := some "42" }) "OK")
         false]).messages :=
  claim_C1_balance cfg0
    [.setDraft "hello", .submit,
     .resolve 0 (.http true (some { answer := some "42" }) "OK") false]
    [.setDraft "hello", .submit,
     .resolve 0 (.http true (some { answer := some "42" }) "OK") false]
    [] (by decide) (by simp)

/-- Claim C2 (code bug): `cancel` itself transitions to idle and appends
nothing (first two conjuncts), but the claim's second half fails: when the
abort lands while `await res.json()` is reading the body, the `AbortError`
is swallowed by `.catch(() => ({}))` and the cancelled request's
resolution still appends a message — the empty answer on an ok response,
the derived error text (here from the status text) on a failed one. -/
theorem claim_C2_cancel_bug :
    (handleCancel (run cfg0 [.setDraft "q", .submit])).loading = false ∧
    (handleCancel (run cfg0 [.setDraft "q", .submit])).ref = none ∧
    (handleCancel (run cfg0 [.setDraft "q", .submit])).messages =
      (run cfg0 [.setDraft "q", .submit]).messages ∧
    (resolveReq (run cfg0 [.setDraft "q", .submit, .cancel]) 0
        (.http true (some { answer := some "late" }) "OK") true).messages =
      (run cfg0 [.setDraft "q", .submit, .cancel]).messages ++
        [{ role := .assistant, content := "", isError := false }] ∧
    (resolveReq (run cfg0 [.setDraft "q", .submit, .cancel]) 0
        (.http false none "Internal Server Error") true).messages =
      (run cfg0 [.setDraft "q", .submit, .cancel]).messages ++
        [{ role := .assistant, content := "Internal Server Error",
           isError := true }] := by
  decide

/-- Claim C3: a failed response appends an assistant message with
`isError = true` whose content follows the `detail` chain — the string
`detail` verbatim; else a non-empty `detail.message`; else a non-empty
status text; else "Request failed" — and an unparseable body is treated as
the empty object, so status text "Internal Server Error" is used then. -/
theorem claim_C3_error_text :
    (∀ (s : WidgetState) (i : Nat) (r : Req) (json : Option Body)
        (st : String) (b : Bool),
      findReq i s.outstanding = some r → r.aborted = false →
      (resolveReq s i (.http false json st) b).messages =
        s.messages ++
          [{ role := .assistant, content := errMsg (json.getD emptyBody) st,
             isError := true }]) ∧
    (∀ (body : Body) (st t : String), body.detail = .str t →
      errMsg body st = t) ∧
    (∀ (body : Body) (st m : String), body.detail = .obj (some m) →
      m ≠ "" → errMsg body st = m) ∧
    (∀ (body : Body) (st : String),
      (detailMessage body.detail = none ∨ detailMessage body.detail = some "") →
      (∀ t, body.detail ≠ .str t) → st ≠ "" → errMsg body st = st) ∧
    (∀ body : Body,
      (detailMessage body.detail = none ∨ detailMessage body.detail = some "") →
      (∀ t, body.detail ≠ .str t) → errMsg body "" = "Request failed") ∧
    (∀ (s : WidgetState) (i : Nat) (st : String) (b : Bool),
      resolveReq s i (.http false none st) b =
        resolveReq s i (.http false (some emptyBody) st) b) ∧
    errMsg emptyBody "Internal Server Error" = "Internal Server Error" := by
  refine ⟨?_, ?_, ?_, ?_, ?_, ?_, rfl⟩
  · intro s i r json st b hfind hnab
    rw [resolveReq_found _ b hfind hnab]
    rfl
  · intro body st t h
    simp [errMsg, h]
  · intro body st m h hm
    simp [errMsg, h, detailMessage, hm]
  · intro body st hmsg hstr hst
    obtain ⟨a, d⟩ := body
    cases d with
    | str t => exact absurd rfl (hstr t)
    | obj om =>
      cases om with
      | none => simp [errMsg, detailMessage, hst]
      | some m =>
        have hm : m = "" := by
          rcases hmsg with hmsg | hmsg
          · exact absurd hmsg (by simp [detailMessage])
          · simpa [detailMessage] using hmsg
        simp [errMsg, detailMessage, hm, hst]
    | absent => simp [errMsg, detailMessage, hst]
  · intro body hmsg hstr
    obtain ⟨a, d⟩ := body
    cases d with
    | str t => exact absurd rfl (hstr t)
    | obj om =>
      cases om with
      | none => simp [errMsg, detailMessage]
      | some m =>
        have hm : m = "" := by
          rcases hmsg with hmsg | hmsg
          · exact absurd hmsg (by simp [detailMessage])
          · simpa [detailMessage] using hmsg
        simp [errMsg, detailMessage, hm]
    | absent => simp [errMsg, detailMessage]
  · intro s i st b
    cases hfind : findReq i s.outstanding with
    | none => rw [resolveReq_none _ b hfind, resolveReq_none _ b hfind]
    | some r =>
      cases hab : r.aborted
      · rw [resolveReq_found _ b hfind hab, resolveReq_found _ b hfind hab]
        rfl
      · cases b
        · rw [resolveReq_aborted_early _ _ hfind hab (fun _ _ _ _ => rfl),
            resolveReq_aborted_early _ _ hfind hab (fun _ _ _ _ => rfl)]
        · rw [resolveReq_aborted_body none st hfind hab,
            resolveReq_aborted_body (some emptyBody) st hfind hab]

/-- Witness for C3: the four fallback levels and the unparseable-body case
at concrete inputs. -/
theorem claim_C3_error_text_witness :
    (resolveReq (run cfg0 [.setDraft "q", .submit]) 0
        (.http false none "Internal Server Error") false).messages =
      (run cfg0 [.setDraft "q", .submit]).messages ++
        [{ role := .assistant, content := "Internal Server Error",
           isError := true }] ∧
    errMsg { detail := .str "bad key" } "X" = "bad key" ∧
    errMsg { detail := .obj (some "oops") } "X" = "oops" ∧
    errMsg { detail := .absent } "Bad Request" = "Bad Request" ∧
    errMsg { detail := .absent } "" = "Request failed" := by
  obtain ⟨h1, h2, h3, h4, h5, h6, h7⟩ := claim_C3_error_text
  refine ⟨?_, ?_, ?_, ?_, ?_⟩
  · have := h1 (run cfg0 [.setDraft "q", .submit]) 0
      { rid := 0
        request :=
          { method := "POST"
            url := "http://api.example.com/rag/query"
            contentType := "application/json"
            xApiKey := "rag_key"
            questionBody := "q" }
        aborted := false }
      none "Internal Server Error" false (by decide) rfl
    rw [this]
    decide
  · exact h2 { detail := .str "bad key" } "X" "bad key" rfl
  · exact h3 { detail := .obj (some "oops") } "X" "oops" rfl (by decide)
  · exact h4 { detail := .absent } "Bad Request" (Or.inl rfl)
      (by intro t; simp) (by decide)
  · exact h5 { detail := .absent } (Or.inl rfl) (by intro t; simp)

/-- Claim C4: a successful response appends exactly one assistant message
whose content is the body's `answer` field (empty when absent) with
`isError = false`, and loading returns to idle. -/
theorem claim_C4_success (s : WidgetState) (i : Nat) (r : Req)
    (json : Option Body) (st : String) (b : Bool)
    (hfind : findReq i s.outstanding = some r) (hnab : r.aborted = false) :
    (resolveReq s i (.http true json st) b).messages =
      s.messages ++
        [{ role := .assistant, content := (json.getD emptyBody).answer.getD "",
           isError := false }] ∧
    (resolveReq s i (.http true json st) b).loading = false := by
  rw [resolveReq_found _ b hfind hnab]
  exact ⟨rfl, rfl⟩

/-- Witness for C4: the simulated success body `{"answer": "42"}` appends
exactly the assistant message `"42"` and returns to idle. -/
theorem claim_C4_success_witness :
    (resolveReq (run cfg0 [.setDraft "q", .submit]) 0
        (.http true (some { answer := some "42" }) "OK") false).messages =
      (run cfg0 [.setDraft "q", .submit]).messages ++
        [{ role := .assistant, content := "42", isError := false }] ∧
    (resolveReq (run cfg0 [.setDraft "q", .submit]) 0
        (.http true (some { answer := some "42" }) "OK") false).loading = false := by
  have h := claim_C4_success (run cfg0 [.setDraft "q", .submit]) 0
    { rid := 0
      request :=
        { method := "POST"
          url := "http://api.example.com/rag/query"
          contentType := "application/json"
          xApiKey := "rag_key"
          questionBody := "q" }
      aborted := false }
    (some { answer := some "42" }) "OK" false (by decide) rfl
  exact ⟨h.1, h.2⟩

/-- Claim C8: the presentation machine has the three states of §4.3, the
initial state is floating-closed when floating and inline otherwise,
`open` maps floating-closed to floating-open and `close` maps back, both
leaving the conversation untouched, and no event ever leaves inline. -/
theorem claim_C8_presentation (cfg : Config) (s : WidgetState) :
    pstate cfg (initState cfg) =
      (if cfg.floating then PState.floatingClosed else PState.inlineMode) ∧
    (pstate cfg s = .floatingClosed →
      pstate cfg (openPanel cfg s) = .floatingOpen ∧
      (openPanel cfg s).messages = s.messages) ∧
    (pstate cfg s = .floatingOpen →
      pstate cfg (closePanel cfg s) = .floatingClosed ∧
      (closePanel cfg s).messages = s.messages) ∧
    (pstate cfg s = .inlineMode →
      ∀ e : Event, pstate cfg (step cfg s e) = .inlineMode) := by
  cases hf : cfg.floating
  · refine ⟨by simp [pstate, initState, hf], ?_, ?_, ?_⟩
    · intro h
      simp [pstate, hf] at h
    · intro h
      simp [pstate, hf] at h
    · intro _ e
      simp [pstate, hf]
  · refine ⟨by simp [pstate, initState, hf], ?_, ?_, ?_⟩
    · intro h
      cases hio : s.isOpen
      · exact ⟨by simp [pstate, openPanel, hf], by simp [openPanel, hf]⟩
      · simp [pstate, hf, hio] at h
    · intro h
      cases hio : s.isOpen
      · simp [pstate, hf, hio] at h
      · exact ⟨by simp [pstate, closePanel, hf, hio],
          by simp [closePanel, hf, hio]⟩
    · intro h
      cases hio : s.isOpen <;> simp [pstate, hf, hio] at h

/-- Witness for C8: with the floating config the initial state is closed,
open then close round-trips with the conversation untouched, and with the
inline config a submit stays inline. -/
theorem claim_C8_presentation_witness :
    pstate cfg0 (initState cfg0) = PState.floatingClosed ∧
    pstate cfg0 (openPanel cfg0 (initState cfg0)) = PState.floatingOpen ∧
    pstate cfg0 (closePanel cfg0 (openPanel cfg0 (initState cfg0))) =
      PState.floatingClosed ∧
    (closePanel cfg0 (openPanel cfg0 (initState cfg0))).messages =
      (initState cfg0).messages ∧
    pstate cfg1 (step cfg1 (initState cfg1) .submit) = PState.inlineMode := by
  have h := claim_C8_presentation cfg0 (initState cfg0)
  have h2 := claim_C8_presentation cfg0 (openPanel cfg0 (initState cfg0))
  refine ⟨by decide, (h.2.1 (by decide)).1, (h2.2.2.1 (by decide)).1,
    ((h2.2.2.1 (by decide)).2).trans (by decide), ?_⟩
  exact (claim_C8_presentation cfg1 (initState cfg1)).2.2.2 (by decide)
    Event.submit

/-- Claim C9: the continuation of any fetch resolution is total — it never
escapes: it appends at most one message (exactly one for a genuine
failure, none for an abort taken as an `AbortError`, one for an abort
swallowed during the body read), always returns loading to false when the
fetch existed, and the widget then accepts a fresh submission. -/
theorem claim_C9_no_throw (cfg : Config) (s : WidgetState) (i : Nat)
    (o : Outcome) (b : Bool) (v : String) (hv : trimString v ≠ "") :
    ((resolveReq s i o b).messages = s.messages ∨
      ∃ m : Message, (resolveReq s i o b).messages = s.messages ++ [m]) ∧
    (findReq i s.outstanding ≠ none →
      (resolveReq s i o b).loading = false ∧
      (handleSubmit cfg (setDraft v (resolveReq s i o b))).messages.length =
        (resolveReq s i o b).messages.length + 1) := by
  cases hfind : findReq i s.outstanding with
  | none =>
    rw [resolveReq_none o b hfind]
    exact ⟨Or.inl rfl, fun h => absurd rfl h⟩
  | some r =>
    cases hab : r.aborted
    · rw [resolveReq_found o b hfind hab]
      refine ⟨Or.inr ⟨appendedMsg o, rfl⟩, fun _ => ⟨rfl, ?_⟩⟩
      rw [handleSubmit_accepted cfg hv rfl]
      simp [setDraft]
    · cases o with
      | http ok json st =>
        cases b
        · rw [resolveReq_aborted_early _ _ hfind hab (fun _ _ _ _ => rfl)]
          refine ⟨Or.inl rfl, fun _ => ⟨rfl, ?_⟩⟩
          rw [handleSubmit_accepted cfg hv rfl]
          simp [setDraft]
        · rw [resolveReq_aborted_body json st hfind hab]
          refine ⟨Or.inr ⟨appendedMsg (.http ok none st), rfl⟩,
            fun _ => ⟨rfl, ?_⟩⟩
          rw [handleSubmit_accepted cfg hv rfl]
          simp [setDraft]
      | netError m =>
        rw [resolveReq_aborted_early _ _ hfind hab
          (fun _ _ _ hh => absurd hh (by simp))]
        refine ⟨Or.inl rfl, fun _ => ⟨rfl, ?_⟩⟩
        rw [handleSubmit_accepted cfg hv rfl]
        simp [setDraft]
      | netThrow =>
        rw [resolveReq_aborted_early _ _ hfind hab
          (fun _ _ _ hh => absurd hh (by simp))]
        refine ⟨Or.inl rfl, fun _ => ⟨rfl, ?_⟩⟩
        rw [handleSubmit_accepted cfg hv rfl]
        simp [setDraft]

/-- Witness for C9: a non-`Error` rejection of a pending fetch is absorbed
and the widget accepts the next question. -/
theorem claim_C9_no_throw_witness :
    ((resolveReq (run cfg0 [.setDraft "q", .submit]) 0 .netThrow
          false).messages =
        (run cfg0 [.setDraft "q", .submit]).messages ∨
      ∃ m : Message,
        (resolveReq (run cfg0 [.setDraft "q", .submit]) 0 .netThrow
            false).messages =
          (run cfg0 [.setDraft "q", .submit]).messages ++ [m]) ∧
    (findReq 0 (run cfg0 [.setDraft "q", .submit]).outstanding ≠ none →
      (resolveReq (run cfg0 [.setDraft "q", .submit]) 0 .netThrow
          false).loading =
        false ∧
      (handleSubmit cfg0 (setDraft "next"
          (resolveReq (run cfg0 [.setDraft "q", .submit]) 0 .netThrow
            false))).messages.length =
        (resolveReq (run cfg0 [.setDraft "q", .submit]) 0 .netThrow
            false).messages.length + 1) :=
  claim_C9_no_throw cfg0 (run cfg0 [.setDraft "q", .submit]) 0 .netThrow
    false "next" (by decide)

end RagChat

